import Mathlib

/-!
Verification of the gold-live price notifier.

Shallow embedding of the core pipeline: the number formatter
(`GoldService.formatNumber`), the three source fetchers
(`fetchWorldGoldPrice`, `fetchDojiPrice`, `fetchBaoTinPrice`) and the
scheduled cycle (`GoldService.fetchAndNotifyPrices`).  HTTP responses are
modelled as values of an `Except` type: a successful response carries the
parsed payload, a failed request carries the transport error (with its
optional status line, mirroring `error.response?.status`).  Every JS value
that can be `undefined` at runtime is an `Option`.
-/

namespace GoldLive

/-! ## Number formatting (`GoldService.formatNumber`)

The source formats via
`numStr.replace(/\B(?=(\d{3})+(?!\d))/g, ',')`.
A comma is inserted at every inter-character position that is not a word
boundary and is followed by a digit run whose length is a positive multiple
of three, terminated by a non-digit or the end of the string.  We embed the
regex semantics directly: at position i the lookahead succeeds exactly when
the maximal digit run starting at i has length d with 3 ≤ d and d % 3 = 0,
and the boundary test requires the preceding character to be a word
character (the following one is a digit, hence a word character). -/

/-- JS regex word character class: letters, digits and underscore. -/
def jsWordChar (c : Char) : Bool :=
  c.isDigit || ('a' ≤ c && c ≤ 'z') || ('A' ≤ c && c ≤ 'Z') || c = '_'

/-- Length of the maximal run of decimal digits at the front of the list. -/
def digitRunLen : List Char → Nat
  | [] => 0
  | c :: cs => if c.isDigit then digitRunLen cs + 1 else 0

/-- One pass over the characters, carrying the previous character; inserts
a comma before `c` exactly when the regex `\B(?=(\d{3})+(?!\d))` matches at
that position. -/
def fmtGo : Char → List Char → List Char
  | _, [] => []
  | prev, c :: cs =>
    let d := if c.isDigit then digitRunLen cs + 1 else 0
    if jsWordChar prev = true ∧ 3 ≤ d ∧ d % 3 = 0 then
      ',' :: c :: fmtGo c cs
    else
      c :: fmtGo c cs

/-- `numStr.replace(/\B(?=(\d{3})+(?!\d))/g, ',')` on a string input.
The regex can never match at position 0 (a word character there makes the
position a boundary, a non-word character fails the lookahead), so the
head character is emitted unchanged. -/
def fmtString (s : String) : String :=
  match s.data with
  | [] => ""
  | c :: cs => String.mk (c :: fmtGo c cs)

/-- A finite JS number, abstracted by its decimal notation: sign, integer
digits, fractional digits (empty when the number prints as an integer).
`jsNumToString` below is its `Number.prototype.toString` rendering. -/
structure JSNum where
  neg : Bool
  intPart : String
  fracPart : String
deriving DecidableEq, Repr

/-- `Number.prototype.toString` for an ordinary decimal number. -/
def jsNumToString (n : JSNum) : String :=
  (if n.neg then "-" else "") ++ n.intPart ++
    (if n.fracPart = "" then "" else "." ++ n.fracPart)

/-- `GoldService.formatNumber(num: number | string)`:
`num.toString()` followed by the comma-inserting replace.  A number input
is first rendered to its decimal string; a string input is unchanged by
`toString`. -/
def formatNumber : JSNum ⊕ String → String
  | Sum.inl n => fmtString (jsNumToString n)
  | Sum.inr s => fmtString s

/-- Decidable equality for `Except`, used to evaluate fetcher outcomes on
concrete inputs. -/
instance {ε α : Type} [DecidableEq ε] [DecidableEq α] :
    DecidableEq (Except ε α) := fun a b =>
  match a, b with
  | .ok x, .ok y =>
    if h : x = y then .isTrue (by rw [h])
    else .isFalse (fun hh => h (Except.ok.inj hh))
  | .error x, .error y =>
    if h : x = y then .isTrue (by rw [h])
    else .isFalse (fun hh => h (Except.error.inj hh))
  | .ok _, .error _ => .isFalse (fun hh => Except.noConfusion hh)
  | .error _, .ok _ => .isFalse (fun hh => Except.noConfusion hh)

/-! ## Errors -/

/-- `GoldPriceError` from gold.service: a message plus the source tag. -/
structure GoldPriceError where
  message : String
  source : String
deriving DecidableEq, Repr

/-- The error thrown inside a fetcher before its own wrapping runs:
either an `AxiosError` (whose `response` may be absent, in which case
`error.response?.status` and `statusText` print as `undefined`), or any
other thrown error. -/
inductive FetchErr where
  | axios (response : Option (Nat × String))
  | other
deriving DecidableEq, Repr

/-- The template
`API Error: [error.response?.status] - [error.response?.statusText]`
used by all three fetchers on an `AxiosError`. -/
def axiosMessage (r : Option (Nat × String)) : String :=
  "API Error: " ++
    ((match r with | some p => toString p.1 | none => "undefined") ++
      (" - " ++ (match r with | some p => p.2 | none => "undefined")))

/-! ## World price fetcher (`GoldService.fetchWorldGoldPrice`) -/

/-- The part of the Gold API JSON body the code reads: `response.data.price`.
The TypeScript interface declares `price: number`, but nothing checks it at
runtime, so a payload may lack the field; that reads as `undefined`,
hence an `Option`. -/
structure WorldPayload where
  price : Option JSNum
deriving DecidableEq, Repr

/-- `GoldService.fetchWorldGoldPrice`: on a successful response, return
`response.data.price` unchecked; on an `AxiosError`, throw a
`GoldPriceError` with the status template; on any other error, throw the
generic `GoldPriceError`.  Both are tagged `World Gold`. -/
def fetchWorldGoldPrice (resp : Except FetchErr WorldPayload) :
    Except GoldPriceError (Option JSNum) :=
  match resp with
  | .ok p => .ok p.price
  | .error (.axios r) => .error ⟨axiosMessage r, "World Gold"⟩
  | .error .other => .error ⟨"Failed to fetch world gold price", "World Gold"⟩

/-! ## Shared string helpers -/

/-- `Array.prototype.join(sep)`. -/
def jsJoin (sep : String) : List String → String
  | [] => ""
  | [x] => x
  | x :: y :: xs => x ++ sep ++ jsJoin sep (y :: xs)

/-- Whether the first list starts the second list. -/
def listLeadsWith : List Char → List Char → Bool
  | [], _ => true
  | _ :: _, [] => false
  | a :: as, b :: bs => a == b && listLeadsWith as bs

/-- Whether `sub` occurs contiguously inside `l`. -/
def containsSub : List Char → List Char → Bool
  | [], sub => sub.isEmpty
  | a :: t, sub => listLeadsWith sub (a :: t) || containsSub t sub

/-- `String.prototype.includes`. -/
def strIncludes (s sub : String) : Bool :=
  containsSub s.data sub.data

/-- `name?.includes(sub)` used as a boolean: `undefined` is falsy. -/
def optIncludes (name : Option String) (sub : String) : Bool :=
  match name with
  | some n => strIncludes n sub
  | none => false

/-! ## DOJI fetcher (`GoldService.fetchDojiPrice`, variant A) -/

/-- One `<Row>` attribute set of the DOJI XML as parsed by xml2js
(`row.$`): `Name`, `Key`, `Sell`, `Buy`. -/
structure DojiRow where
  Name : String
  Key : String
  Sell : String
  Buy : String
deriving DecidableEq, Repr

/-- One `DGPlist`/`JewelryList` entry: a `DateTime` list and the rows. -/
structure DojiTable where
  DateTime : List String
  Row : List DojiRow
deriving DecidableEq, Repr

/-- The parsed DOJI payload (`result.GoldList`): the two table lists. -/
structure DojiPayload where
  DGPlist : List DojiTable
  JewelryList : List DojiTable
deriving DecidableEq, Repr

/-- Filter on the first collection: `row.$.Name.includes('DOJI')`. -/
def brandFilter (r : DojiRow) : Bool :=
  strIncludes r.Name "DOJI"

/-- Filter on the second collection:
`row.$.Name.includes('24k') || row.$.Name.includes('9999')`. -/
def purityFilter (r : DojiRow) : Bool :=
  strIncludes r.Name "24k" || strIncludes r.Name "9999"

/-- The buy line of a formatted row. -/
def dojiBuyLine (r : DojiRow) : String :=
  "  Mua: " ++ fmtString r.Buy ++ " VND"

/-- The sell line of a formatted row. -/
def dojiSellLine (r : DojiRow) : String :=
  "  Bán: " ++ fmtString r.Sell ++ " VND"

/-- One row rendered by the map step:
`- [Name]:\n  Mua: [Buy] VND\n  Bán: [Sell] VND`. -/
def dojiBlock (r : DojiRow) : String :=
  ("- " ++ r.Name ++ ":") ++ "\n" ++ dojiBuyLine r ++ "\n" ++ dojiSellLine r

/-- The successful body: the filtered-and-mapped first table of `DGPlist`
joined by newlines, a literal newline, then likewise for `JewelryList`. -/
def dojiBody (t1 t2 : DojiTable) : String :=
  jsJoin "\n" ((t1.Row.filter brandFilter).map dojiBlock) ++ "\n" ++
    jsJoin "\n" ((t2.Row.filter purityFilter).map dojiBlock)

/-- `GoldService.fetchDojiPrice`: reads `DGPlist[0].Row` and
`JewelryList[0].Row`; if either list is empty the indexing yields
`undefined` and the `.Row` access throws a `TypeError`, which the catch-all
wraps as the generic DOJI failure (it is not an `AxiosError`). -/
def fetchDojiPrice (resp : Except FetchErr DojiPayload) :
    Except GoldPriceError String :=
  match resp with
  | .error (.axios r) => .error ⟨axiosMessage r, "DOJI"⟩
  | .error .other => .error ⟨"Failed to fetch DOJI prices", "DOJI"⟩
  | .ok p =>
    match p.DGPlist, p.JewelryList with
    | t1 :: _, t2 :: _ => .ok (dojiBody t1 t2)
    | _, _ => .error ⟨"Failed to fetch DOJI prices", "DOJI"⟩

/-! ## BTMC fetcher (`GoldService.fetchBaoTinPrice`, variant B) -/

/-- One record of `DataList.Data`: a JS object with string keys and string
values, embedded as an association list; an absent key reads `undefined`. -/
def Item : Type := List (String × String)

/-- Decidable equality for `Item`, used to evaluate the BTMC pipeline on
concrete records. -/
instance : DecidableEq Item :=
  inferInstanceAs (DecidableEq (List (String × String)))

/-- `item[k]`. -/
def itemGet (it : Item) (k : String) : Option String :=
  (it.find? (fun p => p.1 == k)).map (fun p => p.2)

/-- JS truthiness of a string-or-undefined value: `undefined` and the
empty string are falsy. -/
def truthy : Option String → Bool
  | none => false
  | some s => s != ""

/-- JS `a || b` on string-or-undefined values: `b` when `a` is falsy. -/
def jsOr (a b : Option String) : Option String :=
  if truthy a then a else b

/-- `item[k1] || item[k2] || item[k3] || item[k4] || item[k5]`: the first
truthy value, and the raw fifth value (possibly empty or absent) when all
five are falsy. -/
def resolveField (it : Item) (k1 k2 k3 k4 k5 : String) : Option String :=
  jsOr (itemGet it k1) (jsOr (itemGet it k2) (jsOr (itemGet it k3)
    (jsOr (itemGet it k4) (itemGet it k5))))

/-- The name probe `@n_1 … @n_5`. -/
def resolveName (it : Item) : Option String :=
  resolveField it "@n_1" "@n_2" "@n_3" "@n_4" "@n_5"

/-- The karat probe `@k_1 … @k_5`. -/
def resolveKarat (it : Item) : Option String :=
  resolveField it "@k_1" "@k_2" "@k_3" "@k_4" "@k_5"

/-- The purity probe `@h_1 … @h_5`. -/
def resolvePurity (it : Item) : Option String :=
  resolveField it "@h_1" "@h_2" "@h_3" "@h_4" "@h_5"

/-- The buy-price probe `@pb_1 … @pb_5`. -/
def resolveBuy (it : Item) : Option String :=
  resolveField it "@pb_1" "@pb_2" "@pb_3" "@pb_4" "@pb_5"

/-- The sell-price probe `@ps_1 … @ps_5`. -/
def resolveSell (it : Item) : Option String :=
  resolveField it "@ps_1" "@ps_2" "@ps_3" "@ps_4" "@ps_5"

/-- The keep filter:
`name?.includes('SJC') || (karat === '24k' && purity === '999.9')`. -/
def keepItem (it : Item) : Bool :=
  optIncludes (resolveName it) "SJC" ||
    (resolveKarat it == some "24k" && resolvePurity it == some "999.9")

/-- `formatNumber` applied to a possibly-`undefined` string:
`undefined.toString()` throws a `TypeError`, embedded as `Except.error`. -/
def fmtOpt : Option String → Except Unit String
  | none => .error ()
  | some s => .ok (fmtString s)

/-- The buy line of a formatted BTMC record. -/
def btmcBuyLine (bp : String) : String :=
  "  Mua: " ++ bp ++ " VND"

/-- The sell line of a formatted BTMC record. -/
def btmcSellLine (sp : String) : String :=
  "  Bán: " ++ sp ++ " VND"

/-- The map step on one kept record: resolve name, buy and sell, choose the
label, and render; `formatNumber` throws first on an unresolved (absent)
buy price, then on an unresolved sell price. -/
def btmcFmtItem (it : Item) : Except Unit String :=
  match fmtOpt (resolveBuy it) with
  | .error e => .error e
  | .ok bp =>
    match fmtOpt (resolveSell it) with
    | .error e => .error e
    | .ok sp =>
      .ok (("- " ++
        (if optIncludes (resolveName it) "SJC" then "SJC"
          else "Vàng 24K (999.9)") ++ ":") ++ "\n" ++
        btmcBuyLine bp ++ "\n" ++ btmcSellLine sp)

/-- `Array.prototype.map` over a callback that can throw: the first throw
aborts the whole map. -/
def mapExcept (f : α → Except Unit β) : List α → Except Unit (List β)
  | [] => .ok []
  | a :: as =>
    match f a with
    | .error e => .error e
    | .ok b =>
      match mapExcept f as with
      | .error e => .error e
      | .ok bs => .ok (b :: bs)

/-- The body of the BTMC try block: filter, map (which can throw), join. -/
def btmcBody (items : List Item) : Except Unit String :=
  match mapExcept btmcFmtItem (items.filter keepItem) with
  | .error e => .error e
  | .ok l => .ok (jsJoin "\n" l)

/-- `GoldService.fetchBaoTinPrice`: an `AxiosError` becomes the status
template tagged `BTMC`; any throw inside the body (a `TypeError` from
formatting an unresolved price) and any other thrown error become the
generic BTMC failure. -/
def fetchBaoTinPrice (resp : Except FetchErr (List Item)) :
    Except GoldPriceError String :=
  match resp with
  | .error (.axios r) => .error ⟨axiosMessage r, "BTMC"⟩
  | .error .other => .error ⟨"Failed to fetch BTMC prices", "BTMC"⟩
  | .ok items =>
    match btmcBody items with
    | .ok s => .ok s
    | .error _ => .error ⟨"Failed to fetch BTMC prices", "BTMC"⟩

/-! ## The scheduled cycle (`GoldService.fetchAndNotifyPrices`)

The three fetches run sequentially inside one try block, in the order
world, DOJI, BTMC, each awaited before the next starts.  The cycle is
embedded as a function of the three fetch outcomes, the Telegram send
outcome (`send m = true` when `sendMessage` resolves, `false` when it
throws) and the timestamp string, returning a trace: which fetches were
performed (attempted), which messages were delivered, and whether an error
escaped the method. -/

/-- The three sources, in fetch order. -/
inductive Src where
  | world
  | doji
  | btmc
deriving DecidableEq, Repr

/-- An error reaching the catch block: a `GoldPriceError`, or any other JS
error (the `TypeError` from formatting an `undefined` world price, or a
rethrown Telegram send error). -/
inductive CycleErr where
  | gold (e : GoldPriceError)
  | js
deriving DecidableEq, Repr

/-- The observable outcome of one cycle. -/
structure CycleTrace where
  fetched : List Src
  delivered : List String
  escaped : Bool
deriving DecidableEq, Repr

/-- The degraded-path warning text. -/
def warnMessage (e : GoldPriceError) : String :=
  "⚠️ Error fetching " ++ e.source ++ " prices: " ++ e.message

/-- The catch block: a `GoldPriceError` triggers one warning send, whose
own failure escapes the method; any other error is logged and swallowed
with no outward message. -/
def handleCatch (fetched : List Src) (send : String → Bool) :
    CycleErr → CycleTrace
  | .gold e =>
    if send (warnMessage e) then ⟨fetched, [warnMessage e], false⟩
    else ⟨fetched, [], true⟩
  | .js => ⟨fetched, [], false⟩

/-- The success-path report template, with the timestamp, the formatted
world price and the two local blocks interpolated. -/
def buildReport (ts wfmt d b : String) : String :=
  "\n🕒 Gold Prices Update (" ++ (ts ++
    (")\n\n🌍 World Gold Price: $" ++ (wfmt ++
      ("/oz\n\n🏪 Local Gold Shops:\n\nDOJI:\n" ++ (d ++
        ("\n\nBảo Tín Minh Châu:\n" ++ (b ++ "\n      ")))))))

/-- `GoldService.fetchAndNotifyPrices` as a function of the fetch and send
outcomes.  The world fetch runs first; its formatted value is logged right
away, so an `undefined` world price throws a `TypeError` before the DOJI
fetch starts.  A `GoldPriceError` from any fetch jumps to the catch block
with the later fetches never performed.  On full success the report is
built and sent; a send failure is rethrown by `TelegramService.sendMessage`
and lands in the same catch block as a non-`GoldPriceError`. -/
def fetchAndNotifyPrices (worldR : Except GoldPriceError (Option JSNum))
    (dojiR btmcR : Except GoldPriceError String)
    (send : String → Bool) (ts : String) : CycleTrace :=
  match worldR with
  | .error e => handleCatch [.world] send (.gold e)
  | .ok none => handleCatch [.world] send .js
  | .ok (some w) =>
    match dojiR with
    | .error e => handleCatch [.world, .doji] send (.gold e)
    | .ok d =>
      match btmcR with
      | .error e => handleCatch [.world, .doji, .btmc] send (.gold e)
      | .ok b =>
        let msg := buildReport ts (fmtString (jsNumToString w)) d b
        if send msg then ⟨[.world, .doji, .btmc], [msg], false⟩
        else handleCatch [.world, .doji, .btmc] send .js

/-! ## Helper lemmas -/

theorem digitRunLen_le (l : List Char) : digitRunLen l ≤ l.length := by
  induction l with
  | nil => simp [digitRunLen]
  | cons c cs ih =>
    simp only [digitRunLen, List.length_cons]
    split
    · omega
    · omega

theorem digitRunLen_append_dot (xs ys : List Char) :
    digitRunLen (xs ++ '.' :: ys) = digitRunLen xs := by
  induction xs with
  | nil =>
    simp [digitRunLen, show ('.' : Char).isDigit = false from by decide]
  | cons x xs ih =>
    simp [List.cons_append, digitRunLen, ih]

theorem fmtGo_two (l : List Char) (prev : Char) (h : l.length ≤ 2) :
    fmtGo prev l = l := by
  induction l generalizing prev with
  | nil => rfl
  | cons c cs ih =>
    have hr : digitRunLen cs ≤ cs.length := digitRunLen_le cs
    have hcs : cs.length ≤ 1 := by
      simp only [List.length_cons] at h
      omega
    simp only [fmtGo]
    rw [if_neg, ih c (by omega)]
    rintro ⟨-, h3, -⟩
    by_cases hd : c.isDigit
    · simp [hd] at h3
      omega
    · simp [hd] at h3

theorem fmtGo_short (l : List Char) (prev : Char) (hp : jsWordChar prev = false)
    (h : l.length ≤ 3) : fmtGo prev l = l := by
  cases l with
  | nil => rfl
  | cons c cs =>
    have hcs : cs.length ≤ 2 := by
      simp only [List.length_cons] at h
      omega
    simp only [fmtGo]
    rw [if_neg, fmtGo_two cs c hcs]
    rintro ⟨h1, -, -⟩
    rw [hp] at h1
    exact Bool.noConfusion h1

theorem fmtGo_split_dot (xs : List Char) (prev : Char) (fs : List Char)
    (h : fs.length ≤ 3) :
    fmtGo prev (xs ++ '.' :: fs) = fmtGo prev xs ++ '.' :: fs := by
  induction xs generalizing prev with
  | nil =>
    simp only [List.nil_append, fmtGo]
    rw [if_neg, fmtGo_short fs '.' (by decide) h]
    rintro ⟨-, h3, -⟩
    simp [show ('.' : Char).isDigit = false from by decide] at h3
  | cons x xs ih =>
    simp only [List.cons_append, fmtGo, List.append_eq,
      digitRunLen_append_dot, ih x]
    split <;> split <;> simp_all

theorem jsJoin_append (sep : String) (l1 l2 : List String)
    (h1 : l1 ≠ []) (h2 : l2 ≠ []) :
    jsJoin sep (l1 ++ l2) = jsJoin sep l1 ++ sep ++ jsJoin sep l2 := by
  induction l1 with
  | nil => exact absurd rfl h1
  | cons a l ih =>
    cases l with
    | nil =>
      cases l2 with
      | nil => exact absurd rfl h2
      | cons b bs => rfl
    | cons x xs =>
      have step := ih (by simp)
      simp only [List.cons_append] at step ⊢
      rw [jsJoin, jsJoin, step]
      simp [String.append_assoc]

theorem mapExcept_error {α β : Type} (f : α → Except Unit β) (l : List α)
    (x : α) (hx : x ∈ l) (hf : f x = .error ()) :
    mapExcept f l = .error () := by
  induction l with
  | nil => cases hx
  | cons a as ih =>
    rcases List.mem_cons.mp hx with rfl | hmem
    · simp [mapExcept, hf]
    · cases hfa : f a with
      | error e => cases e; simp [mapExcept, hfa]
      | ok b => simp [mapExcept, hfa, ih hmem]

theorem handleCatch_fetched (L : List Src) (send : String → Bool)
    (c : CycleErr) : (handleCatch L send c).fetched = L := by
  cases c with
  | gold e =>
    simp only [handleCatch]
    split <;> rfl
  | js => rfl

theorem handleCatch_delivered_len (L : List Src) (send : String → Bool)
    (c : CycleErr) : (handleCatch L send c).delivered.length ≤ 1 := by
  cases c with
  | gold e =>
    simp only [handleCatch]
    split <;> simp
  | js => simp [handleCatch]

/-! ## Claims -/

/-- C1, counterexample.  When the world-price fetch fails with a
SourceFailure, the DOJI and BTMC fetches are NOT performed: the cycle
records only the world fetch before ending, refuting the claim that the
other two sources are still fetched. -/
theorem c1_counterexample :
    (fetchAndNotifyPrices
        (.error ⟨"API Error: 500 - Internal Server Error", "World Gold"⟩)
        (.ok "doji block") (.ok "btmc block") (fun _ => true) "ts").fetched
      = [Src.world] ∧
    Src.doji ∉ (fetchAndNotifyPrices
        (.error ⟨"API Error: 500 - Internal Server Error", "World Gold"⟩)
        (.ok "doji block") (.ok "btmc block") (fun _ => true) "ts").fetched ∧
    Src.btmc ∉ (fetchAndNotifyPrices
        (.error ⟨"API Error: 500 - Internal Server Error", "World Gold"⟩)
        (.ok "doji block") (.ok "btmc block") (fun _ => true) "ts").fetched := by
  decide

/-- C1, amended.  The three fetches are strictly sequential in the order
world, DOJI, BTMC, and a SourceFailure in any fetch aborts the cycle at
that point: the fetches after the failed one are never performed and only
the warning is reported.  A world failure leaves DOJI and BTMC unfetched;
a DOJI failure leaves BTMC unfetched; only a BTMC failure occurs after all
three fetches were attempted. -/
theorem c1_sequential_abort (e1 e2 e3 : GoldPriceError)
    (dojiR btmcR btmcR2 : Except GoldPriceError String) (d : String)
    (n : JSNum) (send : String → Bool) (ts : String) :
    (fetchAndNotifyPrices (.error e1) dojiR btmcR send ts).fetched
      = [Src.world] ∧
    (fetchAndNotifyPrices (.ok (some n)) (.error e2) btmcR2 send ts).fetched
      = [Src.world, Src.doji] ∧
    (fetchAndNotifyPrices (.ok (some n)) (.ok d) (.error e3) send ts).fetched
      = [Src.world, Src.doji, Src.btmc] :=
  ⟨handleCatch_fetched _ _ _, handleCatch_fetched _ _ _,
    handleCatch_fetched _ _ _⟩

/-- C2, counterexample.  A cycle in which every fetch succeeds but the
notification send itself fails delivers ZERO outward notifications: the
rethrown send error reaches the catch block, is not a GoldPriceError, and
is swallowed without any warning, refuting the claim that every cycle
produces exactly one notification for every possible error. -/
theorem c2_counterexample :
    (fetchAndNotifyPrices (.ok (some ⟨false, "2000", ""⟩)) (.ok "doji")
        (.ok "btmc") (fun _ => false) "ts").delivered = [] := by
  decide

/-- C2, amended.  Every cycle delivers at most one outward notification;
it delivers exactly one (the full report, or a single source-attributed
warning) provided the notification channel accepts every message and the
world payload did not resolve to an undefined price.  A failing send, or a
non-SourceFailure error such as the TypeError raised by formatting an
undefined world price, leads to zero notifications. -/
theorem c2_at_most_one_notification
    (worldR : Except GoldPriceError (Option JSNum))
    (dojiR btmcR : Except GoldPriceError String)
    (send : String → Bool) (ts : String) :
    (fetchAndNotifyPrices worldR dojiR btmcR send ts).delivered.length ≤ 1 ∧
    ((∀ m, send m = true) → worldR ≠ .ok none →
      (fetchAndNotifyPrices worldR dojiR btmcR send ts).delivered.length
        = 1) := by
  constructor
  · cases worldR with
    | error e => exact handleCatch_delivered_len _ _ _
    | ok w =>
      cases w with
      | none => exact handleCatch_delivered_len _ _ _
      | some n =>
        cases dojiR with
        | error e => exact handleCatch_delivered_len _ _ _
        | ok d =>
          cases btmcR with
          | error e => exact handleCatch_delivered_len _ _ _
          | ok b =>
            simp only [fetchAndNotifyPrices]
            split
            · simp
            · exact handleCatch_delivered_len _ _ _
  · intro hsend hw
    cases worldR with
    | error e =>
      simp [fetchAndNotifyPrices, handleCatch, hsend]
    | ok w =>
      cases w with
      | none => exact absurd rfl hw
      | some n =>
        cases dojiR with
        | error e => simp [fetchAndNotifyPrices, handleCatch, hsend]
        | ok d =>
          cases btmcR with
          | error e => simp [fetchAndNotifyPrices, handleCatch, hsend]
          | ok b => simp [fetchAndNotifyPrices, hsend]

/-- C2, witness for the amended theorem at a concrete all-success cycle
with an accepting channel. -/
theorem c2_witness :
    (fetchAndNotifyPrices (.ok (some ⟨false, "2000", ""⟩)) (.ok "doji")
        (.ok "btmc") (fun _ => true) "ts").delivered.length = 1 :=
  (c2_at_most_one_notification (.ok (some ⟨false, "2000", ""⟩)) (.ok "doji")
      (.ok "btmc") (fun _ => true) "ts").2 (fun _ => rfl)
    (fun h => Option.noConfusion (Except.ok.inj h))

/-- C3, counterexample.  A well-formed response payload lacking a numeric
price field does NOT produce a SourceFailure: the fetcher returns the
undefined field as a successful result, which escapes to the caller,
refuting the claim that no non-failure result ever escapes for such
inputs. -/
theorem c3_counterexample :
    fetchWorldGoldPrice (.ok ⟨none⟩) = .ok none ∧
    fetchWorldGoldPrice (.ok ⟨none⟩)
      ≠ .error ⟨"Failed to fetch world gold price", "World Gold"⟩ := by
  refine ⟨rfl, ?_⟩
  decide

/-- C3, amended.  Every error THROWN during the world-price fetch is
wrapped into a SourceFailure tagged World Gold: an AxiosError yields the
message with the upstream status code and description (the literal
undefined markers when no response is attached), and any other thrown
error yields the generic message.  A successful response is returned as
its (unchecked) price field, so a payload lacking the field yields a
successful undefined result rather than a failure. -/
theorem c3_world_failure_wrapping :
    (∀ (s : Nat) (t : String),
      fetchWorldGoldPrice (.error (.axios (some (s, t)))) =
        .error ⟨"API Error: " ++ (toString s ++ (" - " ++ t)),
          "World Gold"⟩) ∧
    fetchWorldGoldPrice (.error (.axios none)) =
      .error ⟨"API Error: undefined - undefined", "World Gold"⟩ ∧
    fetchWorldGoldPrice (.error .other) =
      .error ⟨"Failed to fetch world gold price", "World Gold"⟩ ∧
    (∀ p : WorldPayload, fetchWorldGoldPrice (.ok p) = .ok p.price) :=
  ⟨fun _ _ => rfl, rfl, rfl, fun _ => rfl⟩

/-- C4, counterexample.  A fractional part of four digits DOES receive a
thousands separator: both the string input and the equal number input
format 1.2345 as 1.2,345, refuting the claim that no separator ever
appears after the decimal point. -/
theorem c4_counterexample :
    fmtString "1.2345" = "1.2,345" ∧
    formatNumber (Sum.inl ⟨false, "1", "2345"⟩) = "1.2,345" := by
  decide

/-- C4, amended.  formatNumber groups only the integer portion and leaves
the fractional portion unchanged whenever the fractional part has at most
three digits (in particular formatNumber(1234567.89) = 1,234,567.89); a
fractional part of four or more digits also receives separators. -/
theorem c4_fraction_preserved (istr f : String) (h1 : istr.data ≠ [])
    (h2 : f.data.length ≤ 3) :
    fmtString (istr ++ "." ++ f) = fmtString istr ++ "." ++ f ∧
    formatNumber (Sum.inl ⟨false, "1234567", "89"⟩) = "1,234,567.89" := by
  refine ⟨?_, by decide⟩
  obtain ⟨ls⟩ := istr
  obtain ⟨lf⟩ := f
  obtain ⟨d, dt, rfl⟩ := List.exists_cons_of_ne_nil h1
  have e1 : (String.mk (d :: dt) ++ "." ++ String.mk lf)
      = String.mk ((d :: dt) ++ '.' :: lf) := by
    apply String.ext
    simp [String.data_append]
  rw [e1]
  have e2 : fmtString (String.mk ((d :: dt) ++ '.' :: lf))
      = String.mk (d :: fmtGo d (dt ++ '.' :: lf)) := rfl
  have e3 : fmtString (String.mk (d :: dt))
      = String.mk (d :: fmtGo d dt) := rfl
  rw [e2, fmtGo_split_dot dt d lf h2, e3]
  apply String.ext
  simp [String.data_append]

/-- C4, witness for the amended theorem at the concrete input 12.5. -/
theorem c4_witness :
    fmtString ("12" ++ "." ++ "5") = fmtString "12" ++ "." ++ "5" ∧
    formatNumber (Sum.inl ⟨false, "1234567", "89"⟩) = "1,234,567.89" :=
  c4_fraction_preserved "12" "5" (by decide) (by decide)

/-- C5.  The BTMC buy-price probe resolves to the first non-empty value in
the fixed slot order 1 to 5 — a record whose buy price is present only
under the third slot resolves that value — and the resolution depends only
on the five buy-price slots: any record agreeing on those five keys, no
matter which slots its other fields occupy, resolves the same buy price. -/
theorem c5_first_nonempty_resolution (it it2 : Item) (v : String)
    (h1 : truthy (itemGet it "@pb_1") = false)
    (h2 : truthy (itemGet it "@pb_2") = false)
    (h3 : itemGet it "@pb_3" = some v)
    (hv : v ≠ "")
    (ha1 : itemGet it2 "@pb_1" = itemGet it "@pb_1")
    (ha2 : itemGet it2 "@pb_2" = itemGet it "@pb_2")
    (ha3 : itemGet it2 "@pb_3" = itemGet it "@pb_3")
    (ha4 : itemGet it2 "@pb_4" = itemGet it "@pb_4")
    (ha5 : itemGet it2 "@pb_5" = itemGet it "@pb_5") :
    resolveBuy it = some v ∧ resolveBuy it2 = some v := by
  have main : resolveBuy it = some v := by
    simp only [resolveBuy, resolveField, jsOr, h1, h2, h3]
    simp [truthy, hv]
  refine ⟨main, ?_⟩
  have e : resolveBuy it2 = resolveBuy it := by
    unfold resolveBuy resolveField
    rw [ha1, ha2, ha3, ha4, ha5]
  rw [e, main]

/-- C5, witness: a record carrying the buy price only in slot 3, alone and
inside a record with name and karat fields in other slots. -/
theorem c5_witness :
    resolveBuy [("@pb_3", "8100000")] = some "8100000" ∧
    resolveBuy [("@n_1", "VÀNG MIẾNG SJC"), ("@pb_3", "8100000"),
      ("@k_2", "24k")] = some "8100000" :=
  c5_first_nonempty_resolution [("@pb_3", "8100000")]
    [("@n_1", "VÀNG MIẾNG SJC"), ("@pb_3", "8100000"), ("@k_2", "24k")]
    "8100000" rfl rfl rfl (by decide) rfl rfl rfl rfl rfl

/-- C6.  The DOJI output block is the brand-filtered rows of the first
collection followed by the purity-filtered rows of the second collection,
each rendered with its buy line before its sell line; a row contributes
exactly when it passes the brand filter in the first collection or the
purity filter in the second. -/
theorem c6_doji_filter_order (t1 t2 : DojiTable) (r : DojiRow)
    (h1 : t1.Row.filter brandFilter ≠ [])
    (h2 : t2.Row.filter purityFilter ≠ []) :
    dojiBody t1 t2 = jsJoin "\n"
      ((t1.Row.filter brandFilter ++ t2.Row.filter purityFilter).map
        dojiBlock) ∧
    (r ∈ t1.Row.filter brandFilter ++ t2.Row.filter purityFilter ↔
      (r ∈ t1.Row ∧ brandFilter r = true) ∨
        (r ∈ t2.Row ∧ purityFilter r = true)) ∧
    dojiBlock r = ("- " ++ r.Name ++ ":") ++ "\n" ++
      ("  Mua: " ++ fmtString r.Buy ++ " VND") ++ "\n" ++
      ("  Bán: " ++ fmtString r.Sell ++ " VND") := by
  refine ⟨?_, ?_, rfl⟩
  · rw [List.map_append, jsJoin_append "\n" _ _ (by simpa using h1)
      (by simpa using h2)]
    rfl
  · simp [List.mem_append, List.mem_filter]

/-- C6, witness: one brand row and one purity row. -/
theorem c6_witness :
    dojiBody ⟨["t"], [⟨"DOJI HN", "", "8500", "8400"⟩]⟩
        ⟨["t"], [⟨"Nhẫn 9999", "", "7500", "7400"⟩]⟩ = jsJoin "\n"
      (([(⟨"DOJI HN", "", "8500", "8400"⟩ : DojiRow)] ++
          [(⟨"Nhẫn 9999", "", "7500", "7400"⟩ : DojiRow)]).map dojiBlock) ∧
    ((⟨"DOJI HN", "", "8500", "8400"⟩ : DojiRow) ∈
        ([(⟨"DOJI HN", "", "8500", "8400"⟩ : DojiRow)] ++
          [(⟨"Nhẫn 9999", "", "7500", "7400"⟩ : DojiRow)]) ↔ True) := by
  have h := c6_doji_filter_order ⟨["t"], [⟨"DOJI HN", "", "8500", "8400"⟩]⟩
    ⟨["t"], [⟨"Nhẫn 9999", "", "7500", "7400"⟩]⟩
    ⟨"DOJI HN", "", "8500", "8400"⟩ (by decide) (by decide)
  constructor
  · exact h.1
  · simp

/-- C7.  The delivered report of a fully successful cycle is a
deterministic function of the three payload values and the clock, and two
cycles over identical payloads differ only in the embedded timestamp: both
reports factor as the same fixed prelude, then the timestamp, then the
same payload-determined tail. -/
theorem c7_report_deterministic (n : JSNum) (d b ts1 ts2 : String) :
    ∃ pre suf : String,
      (fetchAndNotifyPrices (.ok (some n)) (.ok d) (.ok b) (fun _ => true)
          ts1).delivered = [pre ++ (ts1 ++ suf)] ∧
      (fetchAndNotifyPrices (.ok (some n)) (.ok d) (.ok b) (fun _ => true)
          ts2).delivered = [pre ++ (ts2 ++ suf)] :=
  ⟨"\n🕒 Gold Prices Update (",
    ")\n\n🌍 World Gold Price: $" ++ (fmtString (jsNumToString n) ++
      ("/oz\n\n🏪 Local Gold Shops:\n\nDOJI:\n" ++ (d ++
        ("\n\nBảo Tín Minh Châu:\n" ++ (b ++ "\n      "))))),
    rfl, rfl⟩

/-- C8.  formatNumber treats a native numeric input and its decimal string
representation identically: both are routed through the same toString and
replace, so the results agree for every number. -/
theorem c8_number_string_agree (n : JSNum) :
    formatNumber (Sum.inl n) = formatNumber (Sum.inr (jsNumToString n)) :=
  rfl

/-- C9, counterexample.  A record passing the keep filter whose five
buy-price slots are all absent or empty does NOT always abort the fetch:
when the fifth slot holds an empty string, the probe chain returns that
empty string, formatting succeeds, and the fetch returns a block with a
blank price instead of the generic BTMC failure. -/
theorem c9_counterexample :
    fetchBaoTinPrice (.ok [[("@n_1", "SJC"), ("@pb_5", ""), ("@ps_5", "")]])
      = .ok "- SJC:\n  Mua:  VND\n  Bán:  VND" := by
  decide

/-- C9, amended.  If a kept record resolves an undefined buy or sell price
— all truthy slots absent AND the fifth slot itself absent, so the probe
chain yields undefined — formatting throws and the entire BTMC fetch fails
with the generic failure, with no partial output; but a present-but-empty
fifth slot formats as an empty string and does not abort the fetch. -/
theorem c9_unresolved_price_fails (items : List Item) (it : Item)
    (hmem : it ∈ items) (hkeep : keepItem it = true)
    (hb : resolveBuy it = none ∨ resolveSell it = none) :
    fetchBaoTinPrice (.ok items)
      = .error ⟨"Failed to fetch BTMC prices", "BTMC"⟩ := by
  have hfmt : btmcFmtItem it = .error () := by
    rcases hb with hb | hb
    · simp [btmcFmtItem, hb, fmtOpt]
    · cases hbuy : resolveBuy it with
      | none => simp [btmcFmtItem, hbuy, fmtOpt]
      | some w => simp [btmcFmtItem, hbuy, hb, fmtOpt]
  have hmem2 : it ∈ items.filter keepItem :=
    List.mem_filter.mpr ⟨hmem, hkeep⟩
  have hmap := mapExcept_error btmcFmtItem (items.filter keepItem) it
    hmem2 hfmt
  simp [fetchBaoTinPrice, btmcBody, hmap]

/-- C9, witness: a kept SJC record with no price slots at all aborts the
whole fetch with the generic failure. -/
theorem c9_witness :
    fetchBaoTinPrice (.ok [[("@n_1", "VÀNG MIẾNG SJC")]])
      = .error ⟨"Failed to fetch BTMC prices", "BTMC"⟩ :=
  c9_unresolved_price_fails [[("@n_1", "VÀNG MIẾNG SJC")]]
    [("@n_1", "VÀNG MIẾNG SJC")] (List.mem_singleton.mpr rfl) (by decide)
    (Or.inl (by decide))

/-- C10.  The DOJI parser reads only the first table of each of the two
collections — two payloads with the same first tables produce the same
outcome, so later tables never contribute — and a payload in which either
collection has no table at all fails with the generic DOJI failure. -/
theorem c10_first_table_only :
    (∀ p q : DojiPayload, p.DGPlist.head? = q.DGPlist.head? →
      p.JewelryList.head? = q.JewelryList.head? →
      fetchDojiPrice (.ok p) = fetchDojiPrice (.ok q)) ∧
    (∀ p : DojiPayload, p.DGPlist = [] ∨ p.JewelryList = [] →
      fetchDojiPrice (.ok p)
        = .error ⟨"Failed to fetch DOJI prices", "DOJI"⟩) := by
  constructor
  · rintro ⟨pd, pj⟩ ⟨qd, qj⟩ h1 h2
    simp only [List.head?] at h1 h2
    cases pd <;> cases qd <;> cases pj <;> cases qj <;>
      simp_all [fetchDojiPrice]
  · rintro ⟨pd, pj⟩ (h | h)
    · subst h
      cases pj <;> rfl
    · subst h
      cases pd <;> rfl

/-- C10, witness: appending a second table to the first collection leaves
the outcome unchanged, and an empty first collection yields the generic
DOJI failure. -/
theorem c10_witness :
    fetchDojiPrice (.ok ⟨[⟨[], [⟨"DOJI HN", "", "8500", "8400"⟩]⟩,
        ⟨[], [⟨"DOJI ignored", "", "1", "1"⟩]⟩], [⟨[], []⟩]⟩)
      = fetchDojiPrice (.ok ⟨[⟨[], [⟨"DOJI HN", "", "8500", "8400"⟩]⟩],
        [⟨[], []⟩]⟩) ∧
    fetchDojiPrice (.ok ⟨[], [⟨[], []⟩]⟩)
      = .error ⟨"Failed to fetch DOJI prices", "DOJI"⟩ :=
  ⟨c10_first_table_only.1 _ _ rfl rfl,
    c10_first_table_only.2 _ (Or.inl rfl)⟩

end GoldLive
